import Mathlib

/-!
Shallow embedding of the weather-radar viewer (src/script6.js).

The script keeps module-level mutable state: two frame catalogs
(radarFrames, satelliteFrames), two sparse caches of Leaflet tile-layer
handles keyed by frame index (radarOverlayLayers, cloudOverlayLayers),
the shared frame index (currentFrame), per-class opacities, the RainViewer
render options, and the auto-play interval handle.  We model that state as
an explicit record and each function of the script as a state transformer.

JavaScript numerics matter here: `x % 0` is NaN, and NaN propagates
through arithmetic and array indexing (arr[NaN] is undefined).  The frame
index is therefore modelled as `JsNum`, an integer or NaN, with JS
truncated remainder (`Int.tmod`) for the `%` operator.

A Leaflet tile layer is modelled as a record carrying a unique creation
id (so that constructing a new layer is observable), the tile URL it was
built with, and its current opacity.  The map surface is modelled as the
set of ids of the attached layers: `map.addLayer` inserts (a no-op when
the layer is already attached, as in Leaflet), `map.removeLayer` after a
`map.hasLayer` check removes.
-/

/-- A JavaScript number as used for the frame index: an integer or NaN. -/
inductive JsNum where
  | nan : JsNum
  | int : Int → JsNum
deriving DecidableEq

namespace JsNum

/-- JS addition of an integer constant: NaN propagates. -/
def add : JsNum → Int → JsNum
  | nan, _ => nan
  | int a, b => int (a + b)

/-- JS remainder `a % m` for a nonnegative integer modulus: `x % 0` is NaN,
NaN propagates, and otherwise JS uses the truncated remainder. -/
def modNat : JsNum → Nat → JsNum
  | nan, _ => nan
  | int a, m => if m = 0 then nan else int (a.tmod m)

/-- The Nat used to key a cache store at this index (only ever applied in
branches where the index was a successful, hence nonnegative, array index). -/
def toIdx : JsNum → Nat
  | nan => 0
  | int n => n.toNat

end JsNum

/-- One RainViewer frame descriptor: `{ path, time }`. -/
structure Frame where
  path : String
  time : Nat
deriving DecidableEq

/-- A Leaflet tile-layer handle: creation id (identity of the object),
the tile URL template it was constructed with, and its opacity. -/
structure OverlayLayer where
  id : Nat
  url : String
  opacity : Rat
deriving DecidableEq

/-- A sparse JS array of layers keyed by frame index, as an association
list with at most one entry per key. -/
abbrev Cache := List (Nat × OverlayLayer)

/-- Reading `layers[i]`. -/
def cacheGet (c : Cache) (i : Nat) : Option OverlayLayer :=
  (c.find? (fun e => e.1 == i)).map (·.2)

/-- Writing `layers[i] = layer`. -/
def cacheSet (c : Cache) (i : Nat) (layer : OverlayLayer) : Cache :=
  (i, layer) :: c.filter (fun e => e.1 != i)

/-- Reading `layers[frameIndex]` at a JS index: `arr[NaN]` and negative
indices are undefined. -/
def cacheGetJ (c : Cache) : JsNum → Option OverlayLayer
  | .nan => none
  | .int n => if n < 0 then none else cacheGet c n.toNat

/-- Reading `frames[frameIndex]` at a JS index. -/
def arrGet (l : List Frame) : JsNum → Option Frame
  | .nan => none
  | .int n => if n < 0 then none else l.get? n.toNat

/-- `map.addLayer`: attach a layer id (no-op when already attached). -/
def attachLayer (ids : List Nat) (i : Nat) : List Nat :=
  if i ∈ ids then ids else i :: ids

/-- `map.hasLayer` followed by `map.removeLayer`: detach a layer id. -/
def detachLayer (ids : List Nat) (i : Nat) : List Nat :=
  ids.filter (fun j => j != i)

/-- The module-level mutable state of script6.js. -/
structure ViewerState where
  radarFrames : List Frame
  satelliteFrames : List Frame
  apiHost : String
  currentFrame : JsNum
  radarOverlayLayers : Cache
  cloudOverlayLayers : Cache
  attachedLayers : List Nat
  rainOpacity : Rat
  cloudOpacity : Rat
  optionColorScheme : Nat
  optionSmoothData : Nat
  optionSnowColors : Nat
  optionExtension : String
  playInterval : Bool
  nextLayerId : Nat
deriving DecidableEq

/-- The initial values of the module-level variables. -/
def initialState : ViewerState where
  radarFrames := []
  satelliteFrames := []
  apiHost := ""
  currentFrame := JsNum.int 0
  radarOverlayLayers := []
  cloudOverlayLayers := []
  attachedLayers := []
  rainOpacity := 1
  cloudOpacity := 1
  optionColorScheme := 2
  optionSmoothData := 1
  optionSnowColors := 1
  optionExtension := "webp"
  playInterval := false
  nextLayerId := 0

/-- The `radarColorSchemes` table mapping a friendly name to a scheme id. -/
def radarColorSchemes (name : String) : Option Nat :=
  if name = "universal_blue" then some 2
  else if name = "original" then some 1
  else if name = "titan" then some 3
  else if name = "weatherchannel" then some 4
  else if name = "meteored" then some 5
  else if name = "nexrad" then some 6
  else if name = "rainbow" then some 7
  else if name = "darksky" then some 8
  else if name = "raw" then some 0
  else none

/-- `buildRadarTileUrl(frame)`. -/
def buildRadarTileUrl (s : ViewerState) (frame : Frame) : String :=
  s.apiHost ++ frame.path ++ "/256/{z}/{x}/{y}/" ++ toString s.optionColorScheme ++ "/"
    ++ toString s.optionSmoothData ++ "_" ++ toString s.optionSnowColors ++ "."
    ++ s.optionExtension

/-- `buildSatelliteTileUrl(frame)`. -/
def buildSatelliteTileUrl (s : ViewerState) (frame : Frame) : String :=
  s.apiHost ++ frame.path ++ "/256/{z}/{x}/{y}/0/0_0." ++ s.optionExtension

/-- The radar block of `addOverlays`: create the layer if not cached (at
the current rainOpacity and with the radar URL from the current options),
store it, and attach the cached layer to the map. -/
def addRadarOverlay (s : ViewerState) (i : Nat) (radarFrame : Frame) : ViewerState :=
  match cacheGet s.radarOverlayLayers i with
  | some layer => { s with attachedLayers := attachLayer s.attachedLayers layer.id }
  | none =>
    let layer : OverlayLayer :=
      { id := s.nextLayerId, url := buildRadarTileUrl s radarFrame, opacity := s.rainOpacity }
    { s with radarOverlayLayers := cacheSet s.radarOverlayLayers i layer
           , nextLayerId := s.nextLayerId + 1
           , attachedLayers := attachLayer s.attachedLayers layer.id }

/-- The satellite block of `addOverlays`. -/
def addCloudOverlay (s : ViewerState) (i : Nat) (satelliteFrame : Frame) : ViewerState :=
  match cacheGet s.cloudOverlayLayers i with
  | some layer => { s with attachedLayers := attachLayer s.attachedLayers layer.id }
  | none =>
    let layer : OverlayLayer :=
      { id := s.nextLayerId, url := buildSatelliteTileUrl s satelliteFrame
      , opacity := s.cloudOpacity }
    { s with cloudOverlayLayers := cacheSet s.cloudOverlayLayers i layer
           , nextLayerId := s.nextLayerId + 1
           , attachedLayers := attachLayer s.attachedLayers layer.id }

/-- `addOverlays(frameIndex)`: return early if either frame descriptor is
missing; otherwise run the radar block then the satellite block. -/
def addOverlays (s : ViewerState) (frameIndex : JsNum) : ViewerState :=
  match arrGet s.radarFrames frameIndex, arrGet s.satelliteFrames frameIndex with
  | some radarFrame, some satelliteFrame =>
    addCloudOverlay (addRadarOverlay s frameIndex.toIdx radarFrame)
      frameIndex.toIdx satelliteFrame
  | _, _ => s

/-- One branch of `removeOverlays`: when the cache lookup yielded a layer,
detach it from the map (`hasLayer` then `removeLayer`). -/
def detachIfPresent (s : ViewerState) (layerOpt : Option OverlayLayer) : ViewerState :=
  match layerOpt with
  | some layer => { s with attachedLayers := detachLayer s.attachedLayers layer.id }
  | none => s

/-- `removeOverlays(frameIndex)`: detach the cached layers at that index
from the map, when present and attached. -/
def removeOverlays (s : ViewerState) (frameIndex : JsNum) : ViewerState :=
  let s1 := detachIfPresent s (cacheGetJ s.radarOverlayLayers frameIndex)
  detachIfPresent s1 (cacheGetJ s1.cloudOverlayLayers frameIndex)

/-- `showFrame(index)`. -/
def showFrame (s : ViewerState) (index : JsNum) : ViewerState :=
  let s1 := removeOverlays s s.currentFrame
  let s2 := { s1 with currentFrame := index }
  addOverlays s2 index

/-- `nextFrame()`: `showFrame((currentFrame + 1) % max)`. -/
def nextFrame (s : ViewerState) : ViewerState :=
  let m := min s.radarFrames.length s.satelliteFrames.length
  showFrame s ((s.currentFrame.add 1).modNat m)

/-- `prevFrame()`: `showFrame((currentFrame - 1 + max) % max)`. -/
def prevFrame (s : ViewerState) : ViewerState :=
  let m := min s.radarFrames.length s.satelliteFrames.length
  showFrame s (((s.currentFrame.add (-1)).add m).modNat m)

/-- `playToggle()`: clear the interval if one is active, otherwise start one. -/
def playToggle (s : ViewerState) : ViewerState :=
  if s.playInterval then { s with playInterval := false }
  else { s with playInterval := true }

/-- The `radar` object of the fetched weather-maps JSON, fields optional. -/
structure RadarData where
  past : Option (List Frame)
  nowcast : Option (List Frame)
deriving DecidableEq

/-- The `satellite` object of the fetched weather-maps JSON. -/
structure SatelliteData where
  infrared : Option (List Frame)
deriving DecidableEq

/-- The fetched weather-maps JSON document. -/
structure WeatherData where
  host : String
  radar : Option RadarData
  satellite : Option SatelliteData
deriving DecidableEq

/-- `fetchRainViewerData()`, parameterised by the parsed JSON document:
stores the host, builds the radar catalog as past concatenated with
nowcast (each defaulting to empty), the satellite catalog as infrared
(defaulting to empty), then runs `addOverlays(currentFrame)`. -/
def fetchRainViewerData (s : ViewerState) (data : WeatherData) : ViewerState :=
  let s1 := { s with
    apiHost := data.host
    radarFrames :=
      ((data.radar.bind RadarData.past).getD []) ++ ((data.radar.bind RadarData.nowcast).getD [])
    satelliteFrames := (data.satellite.bind SatelliteData.infrared).getD [] }
  addOverlays s1 s1.currentFrame

/-- The `opacityRain` input handler: store the new opacity and apply it to
every cached radar layer. -/
def setRainOpacity (s : ViewerState) (v : Rat) : ViewerState :=
  { s with rainOpacity := v
         , radarOverlayLayers :=
             s.radarOverlayLayers.map (fun e => (e.1, { e.2 with opacity := v })) }

/-- The `opacityCloud` input handler. -/
def setCloudOpacity (s : ViewerState) (v : Rat) : ViewerState :=
  { s with cloudOpacity := v
         , cloudOverlayLayers :=
             s.cloudOverlayLayers.map (fun e => (e.1, { e.2 with opacity := v })) }

/-- The `radarStyle` select handler: when the selected name is a known
scheme, store its id, detach the current frame, drop the whole radar layer
cache, and re-add the current frame. -/
def radarStyleChange (s : ViewerState) (sel : String) : ViewerState :=
  match radarColorSchemes sel with
  | none => s
  | some schemeId =>
    let s1 := { s with optionColorScheme := schemeId }
    let s2 := removeOverlays s1 s1.currentFrame
    let s3 := { s2 with radarOverlayLayers := [] }
    addOverlays s3 s3.currentFrame

/-- A user step on the frame controls. -/
inductive UserStep where
  | stepNext : UserStep
  | stepPrev : UserStep
deriving DecidableEq

/-- Run a sequence of next/prev button clicks. -/
def runSteps : List UserStep → ViewerState → ViewerState
  | [], s => s
  | UserStep.stepNext :: rest, s => runSteps rest (nextFrame s)
  | UserStep.stepPrev :: rest, s => runSteps rest (prevFrame s)

/-- The shared index bound: `min(radarFrames.length, satelliteFrames.length)`. -/
def maxFrames (s : ViewerState) : Nat :=
  min s.radarFrames.length s.satelliteFrames.length

/-- The valid-range invariant: the current frame index is an integer in
`[0, maxFrames)`. -/
def indexOK (s : ViewerState) : Prop :=
  ∃ n : Nat, s.currentFrame = JsNum.int n ∧ n < maxFrames s

/-- A concrete frame descriptor used in the closed-instance theorems. -/
def exFrame (p : String) : Frame := { path := p, time := 1 }

/-- A concrete fetched document with two radar and two satellite frames. -/
def exData : WeatherData where
  host := "H"
  radar := some { past := some [exFrame "/a", exFrame "/b"], nowcast := none }
  satellite := some { infrared := some [exFrame "/s0", exFrame "/s1"] }

/-- The state after loading `exData` from the initial state. -/
def loadedEx : ViewerState := fetchRainViewerData initialState exData

/-- A fetched document with one radar frame and no satellite frames. -/
def lopsidedData : WeatherData where
  host := "H"
  radar := some { past := some [exFrame "/a"], nowcast := none }
  satellite := none

/-! ### Basic lemmas about the cache and the map surface -/

theorem find?_pred_congr {α : Type} (l : List α) (p q : α → Bool) (h : ∀ a, p a = q a) :
    l.find? p = l.find? q := by
  induction l with
  | nil => rfl
  | cons e t ih => rw [List.find?_cons, List.find?_cons, h e, ih]

theorem cacheGet_cacheSet_self (c : Cache) (i : Nat) (l : OverlayLayer) :
    cacheGet (cacheSet c i l) i = some l := by
  simp [cacheGet, cacheSet, List.find?_cons]

theorem cacheGet_cacheSet_ne (c : Cache) {i j : Nat} (l : OverlayLayer) (h : j ≠ i) :
    cacheGet (cacheSet c i l) j = cacheGet c j := by
  have hij : (i == j) = false := by simp [Ne.symm h]
  unfold cacheGet cacheSet
  rw [List.find?_cons]
  simp only [hij, Bool.false_eq_true, if_false, List.find?_filter]
  rw [find?_pred_congr]
  intro a
  by_cases ha : a.1 = j
  · simp only [ha]
    simp [h]
  · simp [ha]

theorem cacheGet_map_opacity (c : Cache) (v : Rat) (i : Nat) :
    cacheGet (c.map (fun e => (e.1, { e.2 with opacity := v }))) i
      = (cacheGet c i).map (fun l => { l with opacity := v }) := by
  induction c with
  | nil => rfl
  | cons e t ih =>
    by_cases hei : e.1 = i
    · simp [cacheGet, List.find?_cons, hei]
    · have he : (e.1 == i) = false := by simp [hei]
      simp only [List.map_cons]
      unfold cacheGet at ih ⊢
      rw [List.find?_cons, List.find?_cons]
      simp only [he, Bool.false_eq_true, if_false]
      exact ih

theorem mem_attachLayer (ids : List Nat) (i : Nat) : i ∈ attachLayer ids i := by
  unfold attachLayer; split
  · assumption
  · exact List.mem_cons_self _ _

theorem attachLayer_of_mem {ids : List Nat} {i : Nat} (h : i ∈ ids) :
    attachLayer ids i = ids := by
  unfold attachLayer; simp [h]

theorem mem_attachLayer_of_mem {ids : List Nat} {j : Nat} (i : Nat) (h : j ∈ ids) :
    j ∈ attachLayer ids i := by
  unfold attachLayer; split
  · exact h
  · exact List.mem_cons_of_mem _ h

/-! ### Shape lemmas: which fields each operation can change -/

theorem detachIfPresent_eq (s : ViewerState) (o : Option OverlayLayer) :
    ∃ a, detachIfPresent s o = { s with attachedLayers := a } := by
  unfold detachIfPresent; split
  · exact ⟨_, rfl⟩
  · exact ⟨s.attachedLayers, rfl⟩

theorem removeOverlays_eq (s : ViewerState) (fi : JsNum) :
    ∃ a, removeOverlays s fi = { s with attachedLayers := a } := by
  unfold removeOverlays
  obtain ⟨a1, h1⟩ := detachIfPresent_eq s (cacheGetJ s.radarOverlayLayers fi)
  rw [h1]
  obtain ⟨a2, h2⟩ := detachIfPresent_eq { s with attachedLayers := a1 }
    (cacheGetJ ({ s with attachedLayers := a1 } : ViewerState).cloudOverlayLayers fi)
  rw [h2]
  exact ⟨a2, rfl⟩

theorem addRadarOverlay_eq (s : ViewerState) (i : Nat) (f : Frame) :
    ∃ rc a n, addRadarOverlay s i f
      = { s with radarOverlayLayers := rc, attachedLayers := a, nextLayerId := n } := by
  unfold addRadarOverlay; split
  · exact ⟨s.radarOverlayLayers, _, s.nextLayerId, rfl⟩
  · exact ⟨_, _, _, rfl⟩

theorem addCloudOverlay_eq (s : ViewerState) (i : Nat) (f : Frame) :
    ∃ cc a n, addCloudOverlay s i f
      = { s with cloudOverlayLayers := cc, attachedLayers := a, nextLayerId := n } := by
  unfold addCloudOverlay; split
  · exact ⟨s.cloudOverlayLayers, _, s.nextLayerId, rfl⟩
  · exact ⟨_, _, _, rfl⟩

theorem addOverlays_eq (s : ViewerState) (fi : JsNum) :
    ∃ rc cc a n, addOverlays s fi
      = { s with
          radarOverlayLayers := rc
          cloudOverlayLayers := cc
          attachedLayers := a
          nextLayerId := n } := by
  unfold addOverlays; split
  · rename_i rf sf hr hs
    obtain ⟨rc, a1, n1, h1⟩ := addRadarOverlay_eq s fi.toIdx rf
    rw [h1]
    obtain ⟨cc, a2, n2, h2⟩ := addCloudOverlay_eq
      { s with radarOverlayLayers := rc, attachedLayers := a1, nextLayerId := n1 }
      fi.toIdx sf
    rw [h2]
    exact ⟨rc, cc, a2, n2, rfl⟩
  · exact ⟨s.radarOverlayLayers, s.cloudOverlayLayers, s.attachedLayers, s.nextLayerId, rfl⟩

theorem showFrame_eq (s : ViewerState) (j : JsNum) :
    ∃ rc cc a n, showFrame s j
      = { s with
          currentFrame := j
          radarOverlayLayers := rc
          cloudOverlayLayers := cc
          attachedLayers := a
          nextLayerId := n } := by
  unfold showFrame
  obtain ⟨a1, h1⟩ := removeOverlays_eq s s.currentFrame
  rw [h1]
  obtain ⟨rc, cc, a2, n2, h2⟩ := addOverlays_eq
    { s with attachedLayers := a1, currentFrame := j } j
  exact ⟨rc, cc, a2, n2, h2⟩

theorem nextFrame_eq (s : ViewerState) :
    ∃ rc cc a n, nextFrame s
      = { s with
          currentFrame := (s.currentFrame.add 1).modNat (maxFrames s)
          radarOverlayLayers := rc
          cloudOverlayLayers := cc
          attachedLayers := a
          nextLayerId := n } := by
  unfold nextFrame
  exact showFrame_eq s _

theorem prevFrame_eq (s : ViewerState) :
    ∃ rc cc a n, prevFrame s
      = { s with
          currentFrame := ((s.currentFrame.add (-1)).add (maxFrames s)).modNat (maxFrames s)
          radarOverlayLayers := rc
          cloudOverlayLayers := cc
          attachedLayers := a
          nextLayerId := n } := by
  unfold prevFrame
  exact showFrame_eq s _

/-! ### Cache contents and stability of the overlay blocks -/

theorem addRadarOverlay_cached (s : ViewerState) (i : Nat) (f : Frame) :
    ∃ l, cacheGet (addRadarOverlay s i f).radarOverlayLayers i = some l
      ∧ l.id ∈ (addRadarOverlay s i f).attachedLayers
      ∧ (cacheGet s.radarOverlayLayers i = some l
         ∨ (cacheGet s.radarOverlayLayers i = none
            ∧ l = { id := s.nextLayerId, url := buildRadarTileUrl s f
                  , opacity := s.rainOpacity })) := by
  unfold addRadarOverlay
  cases h : cacheGet s.radarOverlayLayers i with
  | some l => exact ⟨l, h, mem_attachLayer _ _, Or.inl rfl⟩
  | none =>
    exact ⟨_, cacheGet_cacheSet_self _ _ _, mem_attachLayer _ _, Or.inr ⟨rfl, rfl⟩⟩

theorem addCloudOverlay_cached (s : ViewerState) (i : Nat) (f : Frame) :
    ∃ l, cacheGet (addCloudOverlay s i f).cloudOverlayLayers i = some l
      ∧ l.id ∈ (addCloudOverlay s i f).attachedLayers
      ∧ (cacheGet s.cloudOverlayLayers i = some l
         ∨ (cacheGet s.cloudOverlayLayers i = none
            ∧ l = { id := s.nextLayerId, url := buildSatelliteTileUrl s f
                  , opacity := s.cloudOpacity })) := by
  unfold addCloudOverlay
  cases h : cacheGet s.cloudOverlayLayers i with
  | some l => exact ⟨l, h, mem_attachLayer _ _, Or.inl rfl⟩
  | none =>
    exact ⟨_, cacheGet_cacheSet_self _ _ _, mem_attachLayer _ _, Or.inr ⟨rfl, rfl⟩⟩

theorem addRadarOverlay_cloud (s : ViewerState) (i : Nat) (f : Frame) :
    (addRadarOverlay s i f).cloudOverlayLayers = s.cloudOverlayLayers := by
  obtain ⟨rc, a, n, h⟩ := addRadarOverlay_eq s i f
  rw [h]

theorem addCloudOverlay_radar (s : ViewerState) (i : Nat) (f : Frame) :
    (addCloudOverlay s i f).radarOverlayLayers = s.radarOverlayLayers := by
  obtain ⟨cc, a, n, h⟩ := addCloudOverlay_eq s i f
  rw [h]

theorem addRadarOverlay_attached_mono {s : ViewerState} {j : Nat} (i : Nat) (f : Frame)
    (h : j ∈ s.attachedLayers) : j ∈ (addRadarOverlay s i f).attachedLayers := by
  unfold addRadarOverlay
  cases cacheGet s.radarOverlayLayers i <;> exact mem_attachLayer_of_mem _ h

theorem addCloudOverlay_attached_mono {s : ViewerState} {j : Nat} (i : Nat) (f : Frame)
    (h : j ∈ s.attachedLayers) : j ∈ (addCloudOverlay s i f).attachedLayers := by
  unfold addCloudOverlay
  cases cacheGet s.cloudOverlayLayers i <;> exact mem_attachLayer_of_mem _ h

theorem addCloudOverlay_preserves_cloud_entry {s : ViewerState} {i0 : Nat}
    (i : Nat) (f : Frame) {l : OverlayLayer}
    (h : cacheGet s.cloudOverlayLayers i0 = some l) :
    cacheGet (addCloudOverlay s i f).cloudOverlayLayers i0 = some l := by
  unfold addCloudOverlay
  cases hc : cacheGet s.cloudOverlayLayers i with
  | some l2 => exact h
  | none =>
    by_cases hii : i0 = i
    · rw [hii] at h; rw [h] at hc; cases hc
    · show cacheGet (cacheSet s.cloudOverlayLayers i _) i0 = some l
      rw [cacheGet_cacheSet_ne _ _ hii]
      exact h

theorem addRadarOverlay_stable {s : ViewerState} {i : Nat} (f : Frame) {l : OverlayLayer}
    (hc : cacheGet s.radarOverlayLayers i = some l) (ha : l.id ∈ s.attachedLayers) :
    addRadarOverlay s i f = s := by
  unfold addRadarOverlay
  rw [hc]
  show { s with attachedLayers := attachLayer s.attachedLayers l.id } = s
  rw [attachLayer_of_mem ha]

theorem addCloudOverlay_stable {s : ViewerState} {i : Nat} (f : Frame) {l : OverlayLayer}
    (hc : cacheGet s.cloudOverlayLayers i = some l) (ha : l.id ∈ s.attachedLayers) :
    addCloudOverlay s i f = s := by
  unfold addCloudOverlay
  rw [hc]
  show { s with attachedLayers := attachLayer s.attachedLayers l.id } = s
  rw [attachLayer_of_mem ha]

theorem addOverlays_of_missing {s : ViewerState} {fi : JsNum}
    (h : arrGet s.radarFrames fi = none ∨ arrGet s.satelliteFrames fi = none) :
    addOverlays s fi = s := by
  unfold addOverlays
  rcases hr : arrGet s.radarFrames fi with _ | rf
  · rfl
  · rcases hs : arrGet s.satelliteFrames fi with _ | sf
    · rfl
    · rcases h with h | h
      · rw [hr] at h; cases h
      · rw [hs] at h; cases h

theorem addOverlays_of_present {s : ViewerState} {fi : JsNum} {rf sf : Frame}
    (hr : arrGet s.radarFrames fi = some rf) (hs : arrGet s.satelliteFrames fi = some sf) :
    addOverlays s fi = addCloudOverlay (addRadarOverlay s fi.toIdx rf) fi.toIdx sf := by
  unfold addOverlays
  rw [hr, hs]

theorem addOverlays_attached_both {s : ViewerState} {fi : JsNum} {rf sf : Frame}
    (hr : arrGet s.radarFrames fi = some rf) (hs : arrGet s.satelliteFrames fi = some sf) :
    ∃ lr lc, cacheGet (addOverlays s fi).radarOverlayLayers fi.toIdx = some lr
      ∧ lr.id ∈ (addOverlays s fi).attachedLayers
      ∧ cacheGet (addOverlays s fi).cloudOverlayLayers fi.toIdx = some lc
      ∧ lc.id ∈ (addOverlays s fi).attachedLayers := by
  rw [addOverlays_of_present hr hs]
  obtain ⟨lr, hlr, hlrmem, _⟩ := addRadarOverlay_cached s fi.toIdx rf
  obtain ⟨lc, hlc, hlcmem, _⟩ := addCloudOverlay_cached (addRadarOverlay s fi.toIdx rf) fi.toIdx sf
  refine ⟨lr, lc, ?_, ?_, hlc, hlcmem⟩
  · rw [addCloudOverlay_radar]
    exact hlr
  · exact addCloudOverlay_attached_mono _ _ hlrmem

/-- Claim C4: requesting the overlay layers for a frame index a second time,
with the render options unchanged in between, leaves the state exactly as it
was after the first request: the cached handles are returned as they are, no
second layer is constructed (the fresh-id counter does not move), and each
(class, index) pair still maps to at most the one stored layer. -/
theorem c4_overlay_cache_idempotent (s : ViewerState) (fi : JsNum) :
    addOverlays (addOverlays s fi) fi = addOverlays s fi
      ∧ (addOverlays (addOverlays s fi) fi).nextLayerId = (addOverlays s fi).nextLayerId
      ∧ cacheGet (addOverlays (addOverlays s fi) fi).radarOverlayLayers fi.toIdx
          = cacheGet (addOverlays s fi).radarOverlayLayers fi.toIdx
      ∧ cacheGet (addOverlays (addOverlays s fi) fi).cloudOverlayLayers fi.toIdx
          = cacheGet (addOverlays s fi).cloudOverlayLayers fi.toIdx := by
  have main : addOverlays (addOverlays s fi) fi = addOverlays s fi := by
    rcases hr : arrGet s.radarFrames fi with _ | rf
    · have h0 : addOverlays s fi = s := addOverlays_of_missing (Or.inl hr)
      rw [h0, h0]
    · rcases hs : arrGet s.satelliteFrames fi with _ | sf
      · have h0 : addOverlays s fi = s := addOverlays_of_missing (Or.inr hs)
        rw [h0, h0]
      · obtain ⟨rc, cc, a, n, ht⟩ := addOverlays_eq s fi
        have hr2 : arrGet (addOverlays s fi).radarFrames fi = some rf := by rw [ht]; exact hr
        have hs2 : arrGet (addOverlays s fi).satelliteFrames fi = some sf := by
          rw [ht]; exact hs
        obtain ⟨lr, lc, hlr, hlrmem, hlc, hlcmem⟩ := addOverlays_attached_both hr hs
        rw [addOverlays_of_present hr2 hs2]
        rw [addRadarOverlay_stable rf hlr hlrmem]
        rw [addCloudOverlay_stable sf hlc hlcmem]
  exact ⟨main, by rw [main], by rw [main], by rw [main]⟩

/-! ### JS modulo arithmetic on the frame index -/

theorem tmod_coe (a b : Nat) : Int.tmod (a : Int) (b : Int) = ((a % b : Nat) : Int) := rfl

theorem modNat_int (a : Int) (m : Nat) :
    (JsNum.int a).modNat m = if m = 0 then JsNum.nan else JsNum.int (a.tmod m) := rfl

theorem jsStep_next (c m : Nat) (hm : m ≠ 0) :
    ((JsNum.int c).add 1).modNat m = JsNum.int (((c + 1) % m : Nat) : Int) := by
  show (JsNum.int ((c : Int) + 1)).modNat m = _
  rw [modNat_int, if_neg hm, show ((c : Int) + 1) = ((c + 1 : Nat) : Int) by omega, tmod_coe]

theorem jsStep_prev (c m : Nat) (hm : m ≠ 0) :
    (((JsNum.int c).add (-1)).add m).modNat m = JsNum.int (((c + m - 1) % m : Nat) : Int) := by
  show (JsNum.int ((c : Int) + -1 + m)).modNat m = _
  rw [modNat_int, if_neg hm, show ((c : Int) + -1 + m) = ((c + m - 1 : Nat) : Int) by
    have h1 : 1 ≤ m := Nat.one_le_iff_ne_zero.mpr hm
    omega, tmod_coe]

theorem next_index_round (n m : Nat) (h : n < m) : ((n + 1) % m + m - 1) % m = n := by
  rcases Nat.lt_or_ge (n + 1) m with h1 | h1
  · rw [Nat.mod_eq_of_lt h1]
    rw [show n + 1 + m - 1 = n + m by omega]
    rw [Nat.add_mod_right]
    exact Nat.mod_eq_of_lt h
  · have hnm : n + 1 = m := by omega
    rw [hnm, Nat.mod_self]
    rw [show 0 + m - 1 = n by omega]
    exact Nat.mod_eq_of_lt h

theorem prev_index_round (n m : Nat) (h : n < m) : ((n + m - 1) % m + 1) % m = n := by
  rcases Nat.eq_zero_or_pos n with rfl | hn
  · rw [show 0 + m - 1 = m - 1 by omega]
    rw [Nat.mod_eq_of_lt (show m - 1 < m by omega)]
    rw [show m - 1 + 1 = m by omega, Nat.mod_self]
  · rw [show n + m - 1 = (n - 1) + m by omega]
    rw [Nat.add_mod_right, Nat.mod_eq_of_lt (show n - 1 < m by omega)]
    rw [show n - 1 + 1 = n by omega]
    exact Nat.mod_eq_of_lt h

/-! ### The valid-range invariant under next and prev -/

theorem nextFrame_indexOK {s : ViewerState} (h : indexOK s) : indexOK (nextFrame s) := by
  obtain ⟨n, hn, hlt⟩ := h
  have hm : maxFrames s ≠ 0 := by omega
  obtain ⟨rc, cc, a, k, he⟩ := nextFrame_eq s
  refine ⟨(n + 1) % maxFrames s, ?_, ?_⟩
  · rw [he]
    show (s.currentFrame.add 1).modNat (maxFrames s) = _
    rw [hn, jsStep_next _ _ hm]
  · rw [he]
    show (n + 1) % maxFrames s < maxFrames s
    exact Nat.mod_lt _ (by omega)

theorem prevFrame_indexOK {s : ViewerState} (h : indexOK s) : indexOK (prevFrame s) := by
  obtain ⟨n, hn, hlt⟩ := h
  have hm : maxFrames s ≠ 0 := by omega
  obtain ⟨rc, cc, a, k, he⟩ := prevFrame_eq s
  refine ⟨(n + maxFrames s - 1) % maxFrames s, ?_, ?_⟩
  · rw [he]
    show ((s.currentFrame.add (-1)).add (maxFrames s)).modNat (maxFrames s) = _
    rw [hn, jsStep_prev _ _ hm]
  · rw [he]
    show (n + maxFrames s - 1) % maxFrames s < maxFrames s
    exact Nat.mod_lt _ (by omega)

/-- Claim C1 (amended): once the catalog is non-empty and the current frame
index satisfies the valid-range invariant, every sequence of next and prev
clicks keeps it an integer within `[0, max)`, `max = min(len(radarFrames),
len(satelliteFrames))`.  With an empty catalog the range `[0, 0)` is empty
and the invariant is unsatisfiable, see the counterexample. -/
theorem c1_index_stays_in_range (steps : List UserStep) (s : ViewerState)
    (h : indexOK s) : indexOK (runSteps steps s) := by
  induction steps generalizing s with
  | nil => exact h
  | cons st rest ih =>
    cases st with
    | stepNext => exact ih _ (nextFrame_indexOK h)
    | stepPrev => exact ih _ (prevFrame_indexOK h)

/-- Witness for C1 at a concrete loaded catalog of two frames and a
concrete click sequence. -/
theorem c1_witness :
    indexOK (runSteps [UserStep.stepNext, UserStep.stepNext, UserStep.stepPrev] loadedEx) :=
  c1_index_stays_in_range _ loadedEx ⟨0, rfl, by decide⟩

/-- Counterexample for C1 as stated: with the empty catalog (`max = 0`, the
reachable state before any load), the current index 0 is already outside
the empty range `[0, 0)`, and one next() click sets it to NaN. -/
theorem c1_counterexample :
    maxFrames initialState = 0
      ∧ ¬ indexOK initialState
      ∧ (runSteps [UserStep.stepNext] initialState).currentFrame = JsNum.nan
      ∧ ¬ indexOK (runSteps [UserStep.stepNext] initialState) := by
  refine ⟨rfl, ?_, rfl, ?_⟩
  · rintro ⟨n, hn, hlt⟩
    revert hlt
    rw [show maxFrames initialState = 0 from rfl]
    omega
  · rintro ⟨n, hn, hlt⟩
    rw [show (runSteps [UserStep.stepNext] initialState).currentFrame = JsNum.nan from rfl]
      at hn
    cases hn

theorem nextFrame_max (s : ViewerState) : maxFrames (nextFrame s) = maxFrames s := by
  obtain ⟨rc, cc, a, k, he⟩ := nextFrame_eq s
  rw [he]
  rfl

theorem prevFrame_max (s : ViewerState) : maxFrames (prevFrame s) = maxFrames s := by
  obtain ⟨rc, cc, a, k, he⟩ := prevFrame_eq s
  rw [he]
  rfl

theorem nextFrame_cf {s : ViewerState} {n : Nat} (hn : s.currentFrame = JsNum.int n)
    (hm : maxFrames s ≠ 0) :
    (nextFrame s).currentFrame = JsNum.int (((n + 1) % maxFrames s : Nat) : Int) := by
  obtain ⟨rc, cc, a, k, he⟩ := nextFrame_eq s
  rw [he]
  show (s.currentFrame.add 1).modNat (maxFrames s) = _
  rw [hn, jsStep_next _ _ hm]

theorem prevFrame_cf {s : ViewerState} {n : Nat} (hn : s.currentFrame = JsNum.int n)
    (hm : maxFrames s ≠ 0) :
    (prevFrame s).currentFrame
      = JsNum.int (((n + maxFrames s - 1) % maxFrames s : Nat) : Int) := by
  obtain ⟨rc, cc, a, k, he⟩ := prevFrame_eq s
  rw [he]
  show ((s.currentFrame.add (-1)).add (maxFrames s)).modNat (maxFrames s) = _
  rw [hn, jsStep_prev _ _ hm]

/-- Claim C5: from any valid state with the catalog loaded (the current
index an integer within range), next() then prev() and prev() then next()
both return the current frame index to its original value, and when
`max ≤ 1` each single step is already the identity on the index. -/
theorem c5_round_trip (s : ViewerState) (n : Nat)
    (hn : s.currentFrame = JsNum.int n) (hlt : n < maxFrames s) :
    (prevFrame (nextFrame s)).currentFrame = JsNum.int n
      ∧ (nextFrame (prevFrame s)).currentFrame = JsNum.int n
      ∧ (maxFrames s ≤ 1 →
          (nextFrame s).currentFrame = JsNum.int n
            ∧ (prevFrame s).currentFrame = JsNum.int n) := by
  have hm : maxFrames s ≠ 0 := by omega
  have hm2 : maxFrames (nextFrame s) ≠ 0 := by rw [nextFrame_max]; exact hm
  have hm3 : maxFrames (prevFrame s) ≠ 0 := by rw [prevFrame_max]; exact hm
  refine ⟨?_, ?_, ?_⟩
  · have h1 := nextFrame_cf hn hm
    have h2 := prevFrame_cf h1 hm2
    rw [h2, nextFrame_max]
    congr 2
    exact next_index_round n _ hlt
  · have h1 := prevFrame_cf hn hm
    have h2 := nextFrame_cf h1 hm3
    rw [h2, prevFrame_max]
    congr 2
    exact prev_index_round n _ hlt
  · intro hle
    have hm1 : maxFrames s = 1 := by omega
    have hn0 : n = 0 := by omega
    subst hn0
    constructor
    · rw [nextFrame_cf hn hm, hm1]
    · rw [prevFrame_cf hn hm, hm1]

/-- Witness for C5 at the concrete loaded catalog of two frames, index 0. -/
theorem c5_witness :
    (prevFrame (nextFrame loadedEx)).currentFrame = JsNum.int 0
      ∧ (nextFrame (prevFrame loadedEx)).currentFrame = JsNum.int 0 := by
  have h := c5_round_trip loadedEx 0 rfl (by decide)
  exact ⟨h.1, h.2.1⟩

/-- Claim C2 (the code): with the empty catalog (`max = 0`), nextFrame and
prevFrame are not no-ops: `(currentFrame ± 1) % 0` is NaN in JavaScript and
is assigned to currentFrame; and playToggle starts the interval timer
unconditionally.  This is the failing-input evaluation for the claim that
all three are no-ops on an empty catalog. -/
theorem c2_empty_catalog_bug :
    maxFrames initialState = 0
      ∧ (nextFrame initialState).currentFrame = JsNum.nan
      ∧ (prevFrame initialState).currentFrame = JsNum.nan
      ∧ (playToggle initialState).playInterval = true
      ∧ nextFrame (fetchRainViewerData (nextFrame initialState) exData)
          = fetchRainViewerData (nextFrame initialState) exData := by
  refine ⟨rfl, rfl, rfl, rfl, ?_⟩
  decide

/-- Claim C7: the satellite tile URL is
`{host}{frame.path}/256/{z}/{x}/{y}/0/0_0.{format}` for every frame and
every render-options state: scheme, smoothing and snow-color are fixed at
0 whatever the current option values, and only the image format is
inherited. -/
theorem c7_satellite_url (s : ViewerState) (f : Frame) (scheme smooth snow : Nat) :
    buildSatelliteTileUrl
        { s with optionColorScheme := scheme, optionSmoothData := smooth
               , optionSnowColors := snow } f
      = s.apiHost ++ f.path ++ "/256/{z}/{x}/{y}/0/0_0." ++ s.optionExtension := rfl

/-- Claim C9: the load treats each missing metadata field as an empty
sequence: the radar catalog is past concatenated with nowcast, each
defaulting to empty when absent, and the satellite catalog is infrared,
defaulting to empty when absent. -/
theorem c9_missing_fields_default_empty (s : ViewerState) (d : WeatherData) :
    (fetchRainViewerData s d).radarFrames
        = ((d.radar.bind RadarData.past).getD []) ++ ((d.radar.bind RadarData.nowcast).getD [])
      ∧ (fetchRainViewerData s d).satelliteFrames
        = (d.satellite.bind SatelliteData.infrared).getD [] := by
  unfold fetchRainViewerData
  obtain ⟨rc1, cc1, a1, n1, h1⟩ := addOverlays_eq
    { s with
      apiHost := d.host
      radarFrames :=
        ((d.radar.bind RadarData.past).getD []) ++ ((d.radar.bind RadarData.nowcast).getD [])
      satelliteFrames := (d.satellite.bind SatelliteData.infrared).getD [] }
    ({ s with
      apiHost := d.host
      radarFrames :=
        ((d.radar.bind RadarData.past).getD []) ++ ((d.radar.bind RadarData.nowcast).getD [])
      satelliteFrames :=
        (d.satellite.bind SatelliteData.infrared).getD [] } : ViewerState).currentFrame
  rw [h1]
  exact ⟨rfl, rfl⟩

/-- Claim C6: the radar opacity input stores the value and applies it at
once to every cached radar layer, whichever frame it belongs to, while the
satellite cache is untouched. -/
theorem c6_set_opacity (s : ViewerState) (v : Rat) (i : Nat) (l : OverlayLayer)
    (h : cacheGet s.radarOverlayLayers i = some l) :
    (setRainOpacity s v).rainOpacity = v
      ∧ cacheGet (setRainOpacity s v).radarOverlayLayers i = some { l with opacity := v }
      ∧ (setRainOpacity s v).cloudOverlayLayers = s.cloudOverlayLayers := by
  refine ⟨rfl, ?_, rfl⟩
  show cacheGet (s.radarOverlayLayers.map _) i = _
  rw [cacheGet_map_opacity, h]
  rfl

/-- Witness for C6: the cached radar layer of frame 0 of the loaded example
catalog takes opacity 2/5 and the satellite cache is untouched. -/
theorem c6_witness :
    (setRainOpacity loadedEx (2/5)).rainOpacity = 2/5
      ∧ cacheGet (setRainOpacity loadedEx (2/5)).radarOverlayLayers 0
          = some { id := 0, url := "H/a/256/{z}/{x}/{y}/2/1_1.webp", opacity := 2/5 }
      ∧ (setRainOpacity loadedEx (2/5)).cloudOverlayLayers = loadedEx.cloudOverlayLayers :=
  c6_set_opacity loadedEx (2/5) 0
    { id := 0, url := "H/a/256/{z}/{x}/{y}/2/1_1.webp", opacity := 1 } (by decide)

/-- Claim C10: the attach operation is all-or-nothing across the two layer
classes: when either frame descriptor at the index is missing it changes
nothing, and when both are present it caches and attaches both the radar
and the satellite overlay for that index. -/
theorem c10_all_or_nothing (s : ViewerState) (fi : JsNum) :
    ((arrGet s.radarFrames fi = none ∨ arrGet s.satelliteFrames fi = none) →
        addOverlays s fi = s)
      ∧ (∀ rf sf, arrGet s.radarFrames fi = some rf →
          arrGet s.satelliteFrames fi = some sf →
          ∃ lr lc, cacheGet (addOverlays s fi).radarOverlayLayers fi.toIdx = some lr
            ∧ lr.id ∈ (addOverlays s fi).attachedLayers
            ∧ cacheGet (addOverlays s fi).cloudOverlayLayers fi.toIdx = some lc
            ∧ lc.id ∈ (addOverlays s fi).attachedLayers) :=
  ⟨fun h => addOverlays_of_missing h,
   fun _ _ hr hs => addOverlays_attached_both hr hs⟩

/-- Witness for C10 at the loaded example catalog: index 5 is out of range
and nothing changes, while index 1 attaches both overlays. -/
theorem c10_witness :
    addOverlays loadedEx (JsNum.int 5) = loadedEx
      ∧ (∃ lr lc, cacheGet (addOverlays loadedEx (JsNum.int 1)).radarOverlayLayers 1 = some lr
          ∧ lr.id ∈ (addOverlays loadedEx (JsNum.int 1)).attachedLayers
          ∧ cacheGet (addOverlays loadedEx (JsNum.int 1)).cloudOverlayLayers 1 = some lc
          ∧ lc.id ∈ (addOverlays loadedEx (JsNum.int 1)).attachedLayers) := by
  constructor
  · exact (c10_all_or_nothing loadedEx (JsNum.int 5)).1 (Or.inl (by decide))
  · exact (c10_all_or_nothing loadedEx (JsNum.int 1)).2 (exFrame "/b") (exFrame "/s1")
      (by decide) (by decide)

/-! ### Scheme change -/

theorem cacheGet_singleton {j i : Nat} {layer l : OverlayLayer}
    (h : cacheGet (cacheSet [] j layer) i = some l) : l = layer := by
  by_cases hij : i = j
  · subst hij
    rw [cacheGet_cacheSet_self] at h
    exact (Option.some.inj h).symm
  · rw [cacheGet_cacheSet_ne _ _ hij] at h
    simp [cacheGet] at h

theorem addOverlays_radar_url_after_clear (t : ViewerState)
    (ht : t.radarOverlayLayers = []) (i : Nat) (l : OverlayLayer)
    (h : cacheGet (addOverlays t t.currentFrame).radarOverlayLayers i = some l) :
    ∃ f, l.url = buildRadarTileUrl t f := by
  rcases hr : arrGet t.radarFrames t.currentFrame with _ | rf
  · rw [addOverlays_of_missing (Or.inl hr), ht] at h
    simp [cacheGet] at h
  · rcases hs : arrGet t.satelliteFrames t.currentFrame with _ | sf
    · rw [addOverlays_of_missing (Or.inr hs), ht] at h
      simp [cacheGet] at h
    · rw [addOverlays_of_present hr hs, addCloudOverlay_radar] at h
      have hnone : cacheGet t.radarOverlayLayers t.currentFrame.toIdx = none := by
        rw [ht]; rfl
      rw [show addRadarOverlay t t.currentFrame.toIdx rf
            = { t with
                radarOverlayLayers := cacheSet t.radarOverlayLayers t.currentFrame.toIdx
                  { id := t.nextLayerId, url := buildRadarTileUrl t rf
                  , opacity := t.rainOpacity }
                nextLayerId := t.nextLayerId + 1
                attachedLayers := attachLayer t.attachedLayers t.nextLayerId } from by
        unfold addRadarOverlay
        rw [hnone]] at h
      rw [show ({ t with
                radarOverlayLayers := cacheSet t.radarOverlayLayers t.currentFrame.toIdx
                  { id := t.nextLayerId, url := buildRadarTileUrl t rf
                  , opacity := t.rainOpacity }
                nextLayerId := t.nextLayerId + 1
                attachedLayers :=
                  attachLayer t.attachedLayers t.nextLayerId } : ViewerState).radarOverlayLayers
            = cacheSet t.radarOverlayLayers t.currentFrame.toIdx
                  { id := t.nextLayerId, url := buildRadarTileUrl t rf
                  , opacity := t.rainOpacity } from rfl, ht] at h
      exact ⟨rf, by rw [cacheGet_singleton h]⟩

theorem addOverlays_preserves_cloud_entry (t : ViewerState) (fi : JsNum) {i : Nat}
    {l : OverlayLayer} (h : cacheGet t.cloudOverlayLayers i = some l) :
    cacheGet (addOverlays t fi).cloudOverlayLayers i = some l := by
  rcases hr : arrGet t.radarFrames fi with _ | rf
  · rw [addOverlays_of_missing (Or.inl hr)]; exact h
  · rcases hs : arrGet t.satelliteFrames fi with _ | sf
    · rw [addOverlays_of_missing (Or.inr hs)]; exact h
    · rw [addOverlays_of_present hr hs]
      apply addCloudOverlay_preserves_cloud_entry
      rw [addRadarOverlay_cloud]
      exact h

/-- Claim C3: a color-scheme change (for a known scheme name) stores the
scheme id, then after it every layer in the radar cache was built with the
new scheme in its URL (the cache was cleared and rebuilt), the previously
cached satellite handles are returned unchanged, and when the current frame
has both descriptors its radar overlay is cached and attached again. -/
theorem c3_scheme_change (s : ViewerState) (sel : String) (k : Nat)
    (hk : radarColorSchemes sel = some k) :
    (radarStyleChange s sel).optionColorScheme = k
      ∧ (∀ i l, cacheGet (radarStyleChange s sel).radarOverlayLayers i = some l →
          ∃ f, l.url = buildRadarTileUrl { s with optionColorScheme := k } f)
      ∧ (∀ i l, cacheGet s.cloudOverlayLayers i = some l →
          cacheGet (radarStyleChange s sel).cloudOverlayLayers i = some l)
      ∧ (∀ rf sf, arrGet s.radarFrames s.currentFrame = some rf →
          arrGet s.satelliteFrames s.currentFrame = some sf →
          ∃ lr, cacheGet (radarStyleChange s sel).radarOverlayLayers s.currentFrame.toIdx
              = some lr
            ∧ lr.id ∈ (radarStyleChange s sel).attachedLayers) := by
  obtain ⟨a2, h2⟩ := removeOverlays_eq { s with optionColorScheme := k }
    ({ s with optionColorScheme := k } : ViewerState).currentFrame
  have hov : radarStyleChange s sel
      = addOverlays
          { s with optionColorScheme := k, attachedLayers := a2, radarOverlayLayers := [] }
          (({ s with optionColorScheme := k, attachedLayers := a2
                   , radarOverlayLayers := [] } : ViewerState).currentFrame) := by
    simp only [radarStyleChange, hk]
    rw [h2]
  refine ⟨?_, ?_, ?_, ?_⟩
  · rw [hov]
    obtain ⟨rc, cc, a, n, he⟩ := addOverlays_eq
      { s with optionColorScheme := k, attachedLayers := a2, radarOverlayLayers := [] }
      (({ s with optionColorScheme := k, attachedLayers := a2
               , radarOverlayLayers := [] } : ViewerState).currentFrame)
    rw [he]
  · intro i l hl
    rw [hov] at hl
    exact addOverlays_radar_url_after_clear
      { s with optionColorScheme := k, attachedLayers := a2, radarOverlayLayers := [] }
      rfl i l hl
  · intro i l hl
    rw [hov]
    exact addOverlays_preserves_cloud_entry _ _ hl
  · intro rf sf hrf hsf
    rw [hov]
    obtain ⟨lr, lc, hh1, hh2, _, _⟩ := @addOverlays_attached_both
      { s with optionColorScheme := k, attachedLayers := a2, radarOverlayLayers := [] }
      (({ s with optionColorScheme := k, attachedLayers := a2
               , radarOverlayLayers := [] } : ViewerState).currentFrame)
      rf sf hrf hsf
    exact ⟨lr, hh1, hh2⟩

/-- Witness for C3: changing the scheme to titan (id 3) on the loaded
example catalog, checked on the cached satellite layer of frame 0. -/
theorem c3_witness :
    (radarStyleChange loadedEx "titan").optionColorScheme = 3
      ∧ cacheGet (radarStyleChange loadedEx "titan").cloudOverlayLayers 0
          = some { id := 1, url := "H/s0/256/{z}/{x}/{y}/0/0_0.webp", opacity := 1 } := by
  have h := c3_scheme_change loadedEx "titan" 3 rfl
  exact ⟨h.1, h.2.2.1 0 { id := 1, url := "H/s0/256/{z}/{x}/{y}/0/0_0.webp", opacity := 1 }
    (by decide)⟩

/-! ### Load completion -/

theorem arrGet_zero_of_ne_nil {l : List Frame} (h : l ≠ []) :
    ∃ f, arrGet l (JsNum.int 0) = some f := by
  cases l with
  | nil => exact absurd rfl h
  | cons a t => exact ⟨a, rfl⟩

/-- Claim C8 (amended): on load completion from the pre-load state (current
index 0), the current frame index is 0 and, unless the radar catalog or the
satellite catalog came out empty, frame 0 gets both overlays created and
attached; when either catalog is empty the transition attaches and creates
nothing. -/
theorem c8_load_complete (s : ViewerState) (d : WeatherData)
    (h0 : s.currentFrame = JsNum.int 0) :
    (fetchRainViewerData s d).currentFrame = JsNum.int 0
      ∧ ((fetchRainViewerData s d).radarFrames = []
            ∨ (fetchRainViewerData s d).satelliteFrames = [] →
          (fetchRainViewerData s d).radarOverlayLayers = s.radarOverlayLayers
            ∧ (fetchRainViewerData s d).cloudOverlayLayers = s.cloudOverlayLayers
            ∧ (fetchRainViewerData s d).attachedLayers = s.attachedLayers
            ∧ (fetchRainViewerData s d).playInterval = s.playInterval
            ∧ (fetchRainViewerData s d).nextLayerId = s.nextLayerId)
      ∧ ((fetchRainViewerData s d).radarFrames ≠ []
            ∧ (fetchRainViewerData s d).satelliteFrames ≠ [] →
          ∃ lr lc, cacheGet (fetchRainViewerData s d).radarOverlayLayers 0 = some lr
            ∧ lr.id ∈ (fetchRainViewerData s d).attachedLayers
            ∧ cacheGet (fetchRainViewerData s d).cloudOverlayLayers 0 = some lc
            ∧ lc.id ∈ (fetchRainViewerData s d).attachedLayers) := by
  have hcf : ({ s with
      apiHost := d.host
      radarFrames :=
        ((d.radar.bind RadarData.past).getD []) ++ ((d.radar.bind RadarData.nowcast).getD [])
      satelliteFrames :=
        (d.satellite.bind SatelliteData.infrared).getD [] } : ViewerState).currentFrame
      = JsNum.int 0 := h0
  have hfe : fetchRainViewerData s d
      = addOverlays
          { s with
            apiHost := d.host
            radarFrames :=
              ((d.radar.bind RadarData.past).getD [])
                ++ ((d.radar.bind RadarData.nowcast).getD [])
            satelliteFrames := (d.satellite.bind SatelliteData.infrared).getD [] }
          (JsNum.int 0) := by
    simp only [fetchRainViewerData]
    rw [hcf]
  obtain ⟨rc, cc, a, n, he⟩ := addOverlays_eq
    { s with
      apiHost := d.host
      radarFrames :=
        ((d.radar.bind RadarData.past).getD []) ++ ((d.radar.bind RadarData.nowcast).getD [])
      satelliteFrames := (d.satellite.bind SatelliteData.infrared).getD [] }
    (JsNum.int 0)
  refine ⟨?_, ?_, ?_⟩
  · rw [hfe, he]
    exact h0
  · intro hem
    have hmiss : arrGet (({ s with
        apiHost := d.host
        radarFrames :=
          ((d.radar.bind RadarData.past).getD [])
            ++ ((d.radar.bind RadarData.nowcast).getD [])
        satelliteFrames :=
          (d.satellite.bind SatelliteData.infrared).getD [] } :
          ViewerState)).radarFrames (JsNum.int 0) = none
        ∨ arrGet (({ s with
        apiHost := d.host
        radarFrames :=
          ((d.radar.bind RadarData.past).getD [])
            ++ ((d.radar.bind RadarData.nowcast).getD [])
        satelliteFrames :=
          (d.satellite.bind SatelliteData.infrared).getD [] } :
          ViewerState)).satelliteFrames (JsNum.int 0) = none := by
      rcases hem with h | h
      · rw [hfe, he] at h
        left
        show arrGet (((d.radar.bind RadarData.past).getD [])
            ++ ((d.radar.bind RadarData.nowcast).getD [])) (JsNum.int 0) = none
        rw [show (((d.radar.bind RadarData.past).getD [])
            ++ ((d.radar.bind RadarData.nowcast).getD [])) = ([] : List Frame) from h]
        rfl
      · rw [hfe, he] at h
        right
        show arrGet ((d.satellite.bind SatelliteData.infrared).getD []) (JsNum.int 0) = none
        rw [show ((d.satellite.bind SatelliteData.infrared).getD [])
            = ([] : List Frame) from h]
        rfl
    rw [hfe, addOverlays_of_missing hmiss]
    exact ⟨rfl, rfl, rfl, rfl, rfl⟩
  · rintro ⟨hrne, hsne⟩
    have hrne2 : (((d.radar.bind RadarData.past).getD [])
        ++ ((d.radar.bind RadarData.nowcast).getD [])) ≠ [] := by
      intro hnil
      apply hrne
      rw [hfe, he]
      exact hnil
    have hsne2 : ((d.satellite.bind SatelliteData.infrared).getD []) ≠ [] := by
      intro hnil
      apply hsne
      rw [hfe, he]
      exact hnil
    obtain ⟨rf, hrf⟩ := arrGet_zero_of_ne_nil hrne2
    obtain ⟨sf, hsf⟩ := arrGet_zero_of_ne_nil hsne2
    rw [hfe]
    exact addOverlays_attached_both hrf hsf

/-- Witness for C8 at the concrete loaded catalog: after loading, the index
is 0 and frame 0 has both overlays cached and attached. -/
theorem c8_witness :
    (fetchRainViewerData initialState exData).currentFrame = JsNum.int 0
      ∧ (∃ lr lc,
          cacheGet (fetchRainViewerData initialState exData).radarOverlayLayers 0 = some lr
            ∧ lr.id ∈ (fetchRainViewerData initialState exData).attachedLayers
            ∧ cacheGet (fetchRainViewerData initialState exData).cloudOverlayLayers 0 = some lc
            ∧ lc.id ∈ (fetchRainViewerData initialState exData).attachedLayers) := by
  have h := c8_load_complete initialState exData rfl
  exact ⟨h.1, h.2.2 ⟨by decide, by decide⟩⟩

/-- Counterexample for C8 as stated: with one radar frame and no satellite
frames the two sequences are not both empty, yet the load attaches nothing
and creates no layer, so the no-op happens even though only one sequence is
empty. -/
theorem c8_counterexample :
    (fetchRainViewerData initialState lopsidedData).radarFrames ≠ []
      ∧ (fetchRainViewerData initialState lopsidedData).satelliteFrames = []
      ∧ (fetchRainViewerData initialState lopsidedData).attachedLayers = []
      ∧ (fetchRainViewerData initialState lopsidedData).radarOverlayLayers = []
      ∧ (fetchRainViewerData initialState lopsidedData).cloudOverlayLayers = [] := by
  refine ⟨?_, rfl, rfl, rfl, rfl⟩
  decide
